import Mathlib

/-
Verification development for the puppet-web Browser session lifecycle
controller (src/src/puppet-web/browser.ts).

The Browser class owns a StateSwitch state machine (target/current
lifecycle state plus an in-process flag), a driver collaborator and a
cookie collaborator.  Driver calls, process enumeration, kill signals and
cookie loading are external effects; they are modelled as oracles
(functions from invocation index to outcome) and the calls themselves are
recorded in an event trace.  Structured logging is out of scope per the
specification and is not modelled.
-/

set_option linter.unusedVariables false

namespace PuppetWeb

/-- Lifecycle states of the browser session; the source uses the string
literals open and close for its StateSwitch type parameters. -/
inductive BState where
  | opened
  | closed
deriving DecidableEq, Repr

/-- Modelled from the spec: the StateSwitch collaborator (package
state-switch, whose source is not under src/).  It tracks the desired
state `target`, the actual state `current` and an in-transition flag
`inProcess`. -/
structure StateSwitch where
  target : BState
  current : BState
  inProcess : Bool
deriving DecidableEq, Repr

/-- Modelled from the spec: state.target(t) sets the desired state. -/
def StateSwitch.setTarget (s : StateSwitch) (t : BState) : StateSwitch :=
  ⟨t, s.current, s.inProcess⟩

/-- Modelled from the spec: state.current(c, stable) records the actual
state; stable=false marks the transition as provisional (inProcess=true),
stable=true commits it (inProcess=false). -/
def StateSwitch.setCurrent (s : StateSwitch) (c : BState) (stable : Bool) : StateSwitch :=
  ⟨s.target, c, !stable⟩

/-- Modelled from the spec: stable is derived, true iff target equals
current and no transition is in process. -/
def StateSwitch.stable (s : StateSwitch) : Bool :=
  if s.target = s.current then !s.inProcess else false

/-- Initial state of a freshly constructed Browser:
new StateSwitch('Browser', 'close', log). -/
def initialState : StateSwitch := ⟨BState.closed, BState.closed, false⟩

/-- Observable effects of the Browser methods.  Driver calls, cookie
loading, dead-event emissions, kill signals and polling delays are the
effects the claims talk about. -/
inductive Ev where
  | evGet (url : String)
  | evClose
  | evQuit
  | evInit
  | evExec (script : String)
  | evLoadCookie
  | evDead (msg : String)
  | evKill (pid : Nat)
  | evSleep (ms : Nat)
deriving DecidableEq, Repr

/-- JavaScript values observed from driver script execution. -/
inductive JSVal where
  | num (n : Int)
  | str (s : String)
  | undef
deriving DecidableEq, Repr

/-- String interpolation of a JS value, as used in the readyLive error
message. -/
def JSVal.render : JSVal → String
  | JSVal.num n => toString n
  | JSVal.str s => s
  | JSVal.undef => "undefined"

instance {ε α : Type} [DecidableEq ε] [DecidableEq α] : DecidableEq (Except ε α) := fun a b =>
  match a, b with
  | Except.ok x, Except.ok y =>
    if h : x = y then isTrue (by rw [h]) else isFalse (by intro hh; cases hh; exact h rfl)
  | Except.error x, Except.error y =>
    if h : x = y then isTrue (by rw [h]) else isFalse (by intro hh; cases hh; exact h rfl)
  | Except.ok _, Except.error _ => isFalse (by intro hh; cases hh)
  | Except.error _, Except.ok _ => isFalse (by intro hh; cases hh)

/-- Outcome of racing one driver.get(url) call against the 60-second
timer inside Browser.open: the call settles (ok or rejected) before the
timer fires, or the timer fires first. -/
inductive RaceOutcome where
  | settled (r : Except String Unit)
  | hang
deriving DecidableEq, Repr

/-- Per-attempt timeout of the navigation retry engine (milliseconds),
TIMEOUT = 60 * 1000 in Browser.open. -/
def TIMEOUT : Nat := 60 * 1000

/-- Rejection message produced by the timeout guard in Browser.open:
'timeout after ' + Math.round(TIMEOUT / 1000) + ' seconds' + 'at ttl:' + ttl. -/
def timeoutMsg (ttl : Nat) : String :=
  "timeout after " ++ toString (TIMEOUT / 1000) ++ " seconds" ++ "at ttl:" ++ toString ttl

/-- Result with which the inner promise of one Browser.open attempt
settles: the driver result if it settles first, otherwise the timeout
rejection. -/
def raceResult (o : RaceOutcome) (ttl : Nat) : Except String Unit :=
  match o with
  | RaceOutcome.settled r => r
  | RaceOutcome.hang => Except.error (timeoutMsg ttl)

/-- Oracles for the driver collaborator: the k-th invocation of each
driver method yields the given outcome.  get is raced against the open()
timer, so its outcome is a RaceOutcome. -/
structure Driver where
  getO : Nat → RaceOutcome
  closeO : Nat → Except String Unit
  quitO : Nat → Except String Unit
  initO : Nat → Except String Unit

/-- Invocation counters for the driver oracles. -/
structure Counts where
  gets : Nat
  closes : Nat
  quits : Nat
  inits : Nat
deriving DecidableEq, Repr

/-- Zero invocation counters. -/
def counts0 : Counts := ⟨0, 0, 0, 0⟩

/-- Result of Browser.dead: the returned boolean, the (unchanged) state
machine, and any emitted dead event. -/
structure DeadRes where
  val : Bool
  st : StateSwitch
  trace : List Ev
deriving DecidableEq, Repr

/-- Embedding of Browser.dead (browser.ts lines 446-498).  If the state
machine is already in a dead state (target=close or current=close) it
returns true at once.  Otherwise a forced reason, or a missing driver
reference, asserts death; the dead event is emitted only when the state
is stable-open.  No branch assigns to the state machine. -/
def Browser.dead (forceReason : Option String) (hasDriver : Bool) (st : StateSwitch) : DeadRes :=
  if st.target = BState.closed ∨ st.current = BState.closed then
    ⟨true, st, []⟩
  else
    match forceReason with
    | some r =>
      if st.target = BState.opened ∧ st.current = BState.opened ∧ st.stable = true then
        ⟨true, st, [Ev.evDead r]⟩
      else
        ⟨true, st, []⟩
    | none =>
      if hasDriver then
        ⟨false, st, []⟩
      else
        if st.target = BState.opened ∧ st.current = BState.opened ∧ st.stable = true then
          ⟨true, st, [Ev.evDead "no driver or session"]⟩
        else
          ⟨true, st, []⟩

/-- Result of Browser.execute: the script value or error, plus the trace. -/
structure ExecRes where
  res : Except String JSVal
  trace : List Ev
deriving DecidableEq, Repr

/-- Embedding of Browser.execute (browser.ts lines 374-400): fails fast
when the dead check reports dead, otherwise delegates to the driver's
executeScript (oracle execO) and surfaces its result or error unmodified. -/
def Browser.execute (execO : Except String JSVal) (hasDriver : Bool) (st : StateSwitch)
    (script : String) : ExecRes :=
  let d := Browser.dead none hasDriver st
  if d.val then
    ⟨Except.error "Browser.execute() browser dead", d.trace⟩
  else
    match execO with
    | Except.ok v => ⟨Except.ok v, d.trace ++ [Ev.evExec script]⟩
    | Except.error m => ⟨Except.error m, d.trace ++ [Ev.evExec script]⟩

/-- Result of Browser.readyLive: the returned boolean plus the trace. -/
structure ReadyRes where
  val : Bool
  trace : List Ev
deriving DecidableEq, Repr

/-- Embedding of Browser.readyLive (browser.ts lines 420-444): a session
that is dead per the state machine short-circuits to false; otherwise the
probe execute('return 1+1') runs, a probe exception is converted to its
message, and any value other than 2 triggers a forced dead check with the
observed value rendered into the reason. -/
def Browser.readyLive (execO : Except String JSVal) (hasDriver : Bool) (st : StateSwitch) : ReadyRes :=
  let d0 := Browser.dead none hasDriver st
  if d0.val then
    ⟨false, d0.trace⟩
  else
    let ex := Browser.execute execO hasDriver st "return 1+1"
    let two : JSVal :=
      match ex.res with
      | Except.ok v => v
      | Except.error m => JSVal.str m
    if two = JSVal.num 2 then
      ⟨true, ex.trace⟩
    else
      let errMsg := "found dead browser coz 1+1 = " ++ two.render ++ " (not 2)"
      let dr := Browser.dead (some errMsg) hasDriver st
      ⟨false, ex.trace ++ dr.trace⟩

/-- Result of a driver-only step (open attempts, resets, final close+quit):
outcome, updated invocation counters, trace of driver calls made. -/
structure DrvRes where
  res : Except String Unit
  counts : Counts
  trace : List Ev
deriving DecidableEq, Repr

/-- Embedding of the full driver reset performed in the catch block of an
open() attempt: await driver.close(); await driver.quit(); await
driver.init().  A rejection of any of the three propagates (there is no
catch around them inside the loop body's catch). -/
def resetDriver (d : Driver) (c : Counts) : DrvRes :=
  match d.closeO c.closes with
  | Except.error m => ⟨Except.error m, ⟨c.gets, c.closes + 1, c.quits, c.inits⟩, [Ev.evClose]⟩
  | Except.ok _ =>
    let c1 : Counts := ⟨c.gets, c.closes + 1, c.quits, c.inits⟩
    match d.quitO c1.quits with
    | Except.error m => ⟨Except.error m, ⟨c1.gets, c1.closes, c1.quits + 1, c1.inits⟩, [Ev.evClose, Ev.evQuit]⟩
    | Except.ok _ =>
      let c2 : Counts := ⟨c1.gets, c1.closes, c1.quits + 1, c1.inits⟩
      match d.initO c2.inits with
      | Except.error m => ⟨Except.error m, ⟨c2.gets, c2.closes, c2.quits, c2.inits + 1⟩, [Ev.evClose, Ev.evQuit, Ev.evInit]⟩
      | Except.ok _ => ⟨Except.ok (), ⟨c2.gets, c2.closes, c2.quits, c2.inits + 1⟩, [Ev.evClose, Ev.evQuit, Ev.evInit]⟩

/-- Embedding of the final await driver.close(); await driver.quit() that
open() performs after the retry budget is exhausted, before throwing. -/
def finalCloseQuit (d : Driver) (c : Counts) : DrvRes :=
  match d.closeO c.closes with
  | Except.error m => ⟨Except.error m, ⟨c.gets, c.closes + 1, c.quits, c.inits⟩, [Ev.evClose]⟩
  | Except.ok _ =>
    let c1 : Counts := ⟨c.gets, c.closes + 1, c.quits, c.inits⟩
    match d.quitO c1.quits with
    | Except.error m => ⟨Except.error m, ⟨c1.gets, c1.closes, c1.quits + 1, c1.inits⟩, [Ev.evClose, Ev.evQuit]⟩
    | Except.ok _ => ⟨Except.ok (), ⟨c1.gets, c1.closes, c1.quits + 1, c1.inits⟩, [Ev.evClose, Ev.evQuit]⟩

/-- Embedding of the while (ttl--) retry loop of Browser.open (browser.ts
lines 151-195).  The argument is the value of ttl before the check, so the
loop body sees ttl values 2, 1, 0 when started at 3.  An attempt whose
race settles ok returns; a failed attempt (driver rejection or timeout,
whose message the source only logs) is followed by a full driver reset
and the next attempt; when the budget is exhausted the driver is closed
and quit once more and the fixed error is thrown. -/
def openGo (d : Driver) (url : String) : Nat → Counts → DrvRes
  | 0, c =>
    let f := finalCloseQuit d c
    match f.res with
    | Except.ok _ => ⟨Except.error "open fail because ttl expired", f.counts, f.trace⟩
    | Except.error m => ⟨Except.error m, f.counts, f.trace⟩
  | Nat.succ n, c =>
    let out := d.getO c.gets
    let c1 : Counts := ⟨c.gets + 1, c.closes, c.quits, c.inits⟩
    match raceResult out n with
    | Except.ok _ => ⟨Except.ok (), c1, [Ev.evGet url]⟩
    | Except.error _ =>
      let r := resetDriver d c1
      match r.res with
      | Except.ok _ =>
        let rest := openGo d url n r.counts
        ⟨rest.res, rest.counts, Ev.evGet url :: (r.trace ++ rest.trace)⟩
      | Except.error m => ⟨Except.error m, r.counts, Ev.evGet url :: r.trace⟩

/-- Embedding of Browser.open (browser.ts lines 136-196): resolves the
default URL from the cookie collaborator's hostname when the argument is
omitted (failing with 'hostname unknown' when that is null), then runs
the retry loop with ttl = 3. -/
def Browser.openUrl (d : Driver) (hostname : Option String) (url : Option String)
    (c : Counts) : DrvRes :=
  match url with
  | some u => openGo d u 3 c
  | none =>
    match hostname with
    | none => ⟨Except.error "hostname unknown", c, []⟩
    | some h => openGo d ("https://" ++ h) 3 c

/-- Result of Browser.clean: outcome, process-enumeration counter, trace. -/
structure CleanRes where
  res : Except String Unit
  ec : Nat
  trace : List Ev
deriving DecidableEq, Repr

/-- Modelled from the spec: the retry-with-backoff helper (package
retry-promise, whose source is not under src/) polls the operation up to
`fuel` more times, with linear backoff of backoff * attempt milliseconds
between failing attempts; the attempt operation here is the poll of
Browser.clean, which throws 'browser number: N' while the enumerator
still reports N > 0 matching processes.  `a` is the 1-based attempt
number, `ec` the enumeration counter.  The fuel-0 branch is unreachable:
clean always starts the poll with fuel = 15. -/
def cleanPoll (enum : Nat → List Nat) (backoff : Nat) : Nat → Nat → Nat → CleanRes
  | _, 0, ec => ⟨Except.error "retry budget misconfigured", ec, []⟩
  | _, 1, ec =>
    let pids := enum ec
    if pids.length > 0 then
      ⟨Except.error ("browser number: " ++ toString pids.length), ec + 1, []⟩
    else
      ⟨Except.ok (), ec + 1, []⟩
  | a, Nat.succ (Nat.succ f), ec =>
    let pids := enum ec
    if pids.length > 0 then
      let r := cleanPoll enum backoff (a + 1) (Nat.succ f) (ec + 1)
      ⟨r.res, r.ec, Ev.evSleep (backoff * a) :: r.trace⟩
    else
      ⟨Except.ok (), ec + 1, []⟩

/-- Backoff delays produced by an exhausted poll of the given fuel
starting at attempt number a: one sleep after every failing attempt
except the last. -/
def pollSleeps (backoff : Nat) : Nat → Nat → List Ev
  | _, 0 => []
  | _, 1 => []
  | a, Nat.succ (Nat.succ f) => Ev.evSleep (backoff * a) :: pollSleeps backoff (a + 1) (Nat.succ f)

/-- Embedding of Browser.clean (browser.ts lines 281-319): when kill is
true it first enumerates the browser-family processes and sends SIGKILL
to every pid (per-pid kill failures are logged and swallowed, so the kill
oracle does not influence the outcome), then polls the enumerator through
the retry helper with max = 15 and backoff = 100.  The process
enumeration (getBrowserPidList: ps-tree plus the head-keyed pattern
filter) is abstracted as the oracle `enum`, giving the pid list of the
k-th enumeration. -/
def Browser.clean (kill : Bool) (enum : Nat → List Nat) (killO : Nat → Except String Unit)
    (ec : Nat) : CleanRes :=
  if kill then
    let pids := enum ec
    let kevs := pids.map Ev.evKill
    let r := cleanPoll enum 100 1 15 (ec + 1)
    ⟨r.res, r.ec, kevs ++ r.trace⟩
  else
    cleanPoll enum 100 1 15 ec

/-- Result of a lifecycle operation (init or quit): outcome, state
machine, driver counters, enumeration counter, trace. -/
structure SessionRes where
  res : Except String Unit
  st : StateSwitch
  counts : Counts
  ec : Nat
  trace : List Ev
deriving DecidableEq, Repr

/-- Embedding of Browser.quit (browser.ts lines 219-279).  A session
already in current=close fails fast.  Otherwise target=close and a
provisional current=close are recorded, driver.close() and driver.quit()
run with their rejections caught and logged (so their oracles do not
influence the outcome), clean() runs and is retried once with kill=true
on failure, any exception of the try block is swallowed as fail-safe, and
the finally block commits current=close as stable. -/
def Browser.quit (d : Driver) (enum : Nat → List Nat) (killO : Nat → Except String Unit)
    (st : StateSwitch) (c : Counts) (ec : Nat) : SessionRes :=
  if st.current = BState.closed then
    ⟨Except.error (if st.inProcess then
        "quit() fail: on a browser with state.current():`close` and inprocess():`true` ?"
      else
        "quit() fail: on a already quit-ed browser"), st, c, ec, []⟩
  else
    let st1 := StateSwitch.setCurrent (StateSwitch.setTarget st BState.closed) BState.closed false
    let c1 : Counts := ⟨c.gets, c.closes + 1, c.quits + 1, c.inits⟩
    let r1 := Browser.clean false enum killO ec
    let after : Nat × List Ev :=
      match r1.res with
      | Except.ok _ => (r1.ec, r1.trace)
      | Except.error _ =>
        let r2 := Browser.clean true enum killO r1.ec
        (r2.ec, r1.trace ++ r2.trace)
    let st2 := StateSwitch.setCurrent st1 BState.closed true
    ⟨Except.ok (), st2, c1, after.1, Ev.evClose :: Ev.evQuit :: after.2⟩

/-- Rendering of the cookie collaborator's hostname into the jump URL of
init(): a JS template literal turns null into the string 'null'. -/
def hostString : Option String → String
  | some h => h
  | none => "null"

/-- Error thrown by init() when it finds state.target() flipped to close
after its navigation sequence. -/
def abortMsg : String :=
  "init() open() done, but state.target() is set to close after that. has to quit()."

/-- Embedding of the catch block of Browser.init: await this.quit() then
throw the original error (if quit() itself threw, that error would
propagate instead, which the match reproduces). -/
def initFail (d : Driver) (enum : Nat → List Nat) (killO : Nat → Except String Unit)
    (errm : String) (st : StateSwitch) (c : Counts) (ec : Nat) (evs : List Ev) : SessionRes :=
  let q := Browser.quit d enum killO st c ec
  match q.res with
  | Except.error qm => ⟨Except.error qm, q.st, q.counts, q.ec, evs ++ q.trace⟩
  | Except.ok _ => ⟨Except.error errm, q.st, q.counts, q.ec, evs ++ q.trace⟩

/-- Embedding of Browser.init (browser.ts lines 68-127).  A current state
of open (stable or in process) fails fast with no driver call and no
state change.  Otherwise target=open and a provisional current=open are
recorded, the driver is initialised, the jump URL and then the real
target URL are opened (the cookie load between them is best-effort and
its failure swallowed), and the one commit point checks whether a
concurrent caller has flipped target to close (modelled by `interfere`);
if so init aborts without committing current=open.  Every failure of the
sequence runs quit() before the error is re-raised. -/
def Browser.init (d : Driver) (hostname : Option String) (loadRes : Except String Unit)
    (interfere : Bool) (enum : Nat → List Nat) (killO : Nat → Except String Unit)
    (st : StateSwitch) (c : Counts) (ec : Nat) : SessionRes :=
  if st.current = BState.opened then
    ⟨Except.error (if st.inProcess then
        "init() fail: current state is `open`-`ing`"
      else
        "init() fail: current state is `open`"), st, c, ec, []⟩
  else
    let st1 := StateSwitch.setCurrent (StateSwitch.setTarget st BState.opened) BState.opened false
    let jumpUrl := "https://" ++ hostString hostname ++ "/zh_CN/htmledition/v2/images/webwxgeticon.jpg"
    let c0 : Counts := ⟨c.gets, c.closes, c.quits, c.inits + 1⟩
    match d.initO c.inits with
    | Except.error m => initFail d enum killO m st1 c0 ec [Ev.evInit]
    | Except.ok _ =>
      let o1 := Browser.openUrl d hostname (some jumpUrl) c0
      match o1.res with
      | Except.error m => initFail d enum killO m st1 o1.counts ec (Ev.evInit :: o1.trace)
      | Except.ok _ =>
        let o2 := Browser.openUrl d hostname none o1.counts
        match o2.res with
        | Except.error m =>
          initFail d enum killO m st1 o2.counts ec
            (Ev.evInit :: o1.trace ++ [Ev.evLoadCookie] ++ o2.trace)
        | Except.ok _ =>
          let st2 := if interfere then StateSwitch.setTarget st1 BState.closed else st1
          if st2.target = BState.opened then
            ⟨Except.ok (), StateSwitch.setCurrent st2 BState.opened true, o2.counts, ec,
              Ev.evInit :: o1.trace ++ [Ev.evLoadCookie] ++ o2.trace⟩
          else
            initFail d enum killO abortMsg st2 o2.counts ec
              (Ev.evInit :: o1.trace ++ [Ev.evLoadCookie] ++ o2.trace)

/-- One lifecycle operation of an interleaving of init() and quit()
calls, carrying the oracles that call uses. -/
inductive Op where
  | opInit (d : Driver) (hostname : Option String) (loadRes : Except String Unit)
      (interfere : Bool) (enum : Nat → List Nat) (killO : Nat → Except String Unit)
  | opQuit (d : Driver) (enum : Nat → List Nat) (killO : Nat → Except String Unit)

/-- State reached by running one lifecycle operation. -/
def stepOp (st : StateSwitch) : Op → StateSwitch
  | Op.opInit d h l i e k => (Browser.init d h l i e k st counts0 0).st
  | Op.opQuit d e k => (Browser.quit d e k st counts0 0).st

/-- State machine after a sequence of interleaved init() and quit()
calls starting from the freshly constructed (closed, stable) Browser. -/
def runOps (ops : List Op) : StateSwitch :=
  ops.foldl stepOp initialState

/-- A stable-open session state. -/
def stOpen : StateSwitch := ⟨BState.opened, BState.opened, false⟩

/-- A driver whose every call succeeds (get settles ok before the timer). -/
def trivialDriver : Driver :=
  ⟨fun _ => RaceOutcome.settled (Except.ok ()),
   fun _ => Except.ok (), fun _ => Except.ok (), fun _ => Except.ok ()⟩

/-- A driver whose every get call settles with the given rejection and
whose close/quit/init calls succeed. -/
def allFailDriver (msg : String) : Driver :=
  ⟨fun _ => RaceOutcome.settled (Except.error msg),
   fun _ => Except.ok (), fun _ => Except.ok (), fun _ => Except.ok ()⟩

/-- A driver whose init() calls reject and whose other calls succeed. -/
def failInitDriver : Driver :=
  ⟨fun _ => RaceOutcome.settled (Except.ok ()),
   fun _ => Except.ok (), fun _ => Except.ok (), fun _ => Except.error "driver init boom"⟩

/-- A process enumerator that always reports no matching processes. -/
def enumEmpty : Nat → List Nat := fun _ => []

/-- A process enumerator that always reports one orphaned process. -/
def enumOrphan : Nat → List Nat := fun _ => [42]

/-- A kill oracle whose every signal succeeds. -/
def killOk : Nat → Except String Unit := fun _ => Except.ok ()

/-- The stability predicate is derived from target and current, so a
stable state always has target equal to current. -/
lemma stable_eq_of_stable (s : StateSwitch) (h : s.stable = true) : s.target = s.current := by
  unfold StateSwitch.stable at h
  by_cases hc : s.target = s.current
  · exact hc
  · rw [if_neg hc] at h
    cases h

/-- Past its guard, quit() always resolves (every failure inside is
swallowed) and the finally block leaves the state machine committed to
close with target close and no transition in process. -/
lemma quit_spec (d : Driver) (enum : Nat → List Nat) (killO : Nat → Except String Unit)
    (st : StateSwitch) (c : Counts) (ec : Nat) (h : st.current ≠ BState.closed) :
    (Browser.quit d enum killO st c ec).res = Except.ok () ∧
    (Browser.quit d enum killO st c ec).st = ⟨BState.closed, BState.closed, false⟩ := by
  unfold Browser.quit
  rw [if_neg h]
  exact ⟨rfl, rfl⟩

/-- The catch block of init() re-raises the original error after running
quit(), so every failure exit of init() leaves the state machine fully
closed. -/
lemma initFail_spec (d : Driver) (enum : Nat → List Nat) (killO : Nat → Except String Unit)
    (errm : String) (st : StateSwitch) (c : Counts) (ec : Nat) (evs : List Ev)
    (h : st.current ≠ BState.closed) :
    (initFail d enum killO errm st c ec evs).res = Except.error errm ∧
    (initFail d enum killO errm st c ec evs).st = ⟨BState.closed, BState.closed, false⟩ := by
  unfold initFail
  have h1 := (quit_spec d enum killO st c ec h).1
  have h2 := (quit_spec d enum killO st c ec h).2
  simp [h1, h2]

/-- C2: for every call to quit() that passes the initial already-closed
guard (current is not close), the session state ends with target=close,
current=close and no transition in process — i.e. current=close committed
as stable — on every execution path: the driver oracles, the process
enumerator and the kill oracle are universally quantified, and the
definition swallows every inner failure before the finally block commits. -/
theorem c2_quit_commits_close (d : Driver) (enum : Nat → List Nat)
    (killO : Nat → Except String Unit) (st : StateSwitch) (c : Counts) (ec : Nat)
    (h : st.current ≠ BState.closed) :
    (Browser.quit d enum killO st c ec).st = ⟨BState.closed, BState.closed, false⟩ ∧
    ((Browser.quit d enum killO st c ec).st).stable = true := by
  have hs := (quit_spec d enum killO st c ec h).2
  exact ⟨hs, by rw [hs]; rfl⟩

/-- C2 witness: quitting a stable-open session with an always-orphaned
enumerator still ends committed to stable close. -/
theorem c2_quit_commits_close_witness :
    (Browser.quit trivialDriver enumOrphan killOk stOpen counts0 0).st =
      ⟨BState.closed, BState.closed, false⟩ ∧
    ((Browser.quit trivialDriver enumOrphan killOk stOpen counts0 0).st).stable = true :=
  c2_quit_commits_close trivialDriver enumOrphan killOk stOpen counts0 0
    (by intro h; cases h)

/-- C3 counterexample: the claim says quit() surfaces an error if and
only if post-shutdown cleanup (clean retried with forceKill=true) still
finds orphaned processes.  With an enumerator that always reports an
orphaned process, both clean passes exhaust their budgets and fail, yet
quit() resolves successfully: the outer catch swallows the cleanup error
as fail-safe.  The enumerator still reports the orphan after the final
enumeration quit() performed. -/
theorem c3_quit_counterexample :
    (Browser.quit trivialDriver enumOrphan killOk stOpen counts0 0).res = Except.ok () ∧
    enumOrphan ((Browser.quit trivialDriver enumOrphan killOk stOpen counts0 0).ec) ≠ [] := by
  constructor
  · rfl
  · intro h
    cases h

/-- C3 amended: quit() never propagates driver-level errors from close()
or quit(), and it never surfaces cleanup errors either: past the
already-closed guard it always resolves successfully, even when
clean(forceKill=true) still finds orphaned processes (that
OrphanProcessesRemain failure is logged and swallowed by the outer
fail-safe catch). -/
theorem c3_quit_never_surfaces (d : Driver) (enum : Nat → List Nat)
    (killO : Nat → Except String Unit) (st : StateSwitch) (c : Counts) (ec : Nat)
    (h : st.current ≠ BState.closed) :
    (Browser.quit d enum killO st c ec).res = Except.ok () :=
  (quit_spec d enum killO st c ec h).1

/-- C3 amended witness: a quit whose cleanup keeps finding an orphan
still resolves successfully. -/
theorem c3_quit_never_surfaces_witness :
    (Browser.quit trivialDriver enumOrphan killOk stOpen counts0 0).res = Except.ok () :=
  c3_quit_never_surfaces trivialDriver enumOrphan killOk stOpen counts0 0
    (by intro h; cases h)

/-- C4: for every sequence of interleaved init() and quit() calls started
from the freshly constructed closed state, the state machine never
reports stable=true while target differs from current.  The stability
predicate of the state switch is derived as target=current and not
in-process, so a stable state always has target equal to current. -/
theorem c4_stable_agrees (ops : List Op) (h : (runOps ops).stable = true) :
    (runOps ops).target = (runOps ops).current :=
  stable_eq_of_stable (runOps ops) h

/-- C4 witness: the empty sequence leaves the initial state, which is
stable with target and current both close. -/
theorem c4_stable_agrees_witness :
    (runOps []).stable = true ∧ (runOps []).target = (runOps []).current :=
  ⟨rfl, c4_stable_agrees [] rfl⟩

/-- C5 counterexample: the claim says repeated markDead() calls while the
session remains in the same dead condition emit at most one dead
notification in total.  Browser.dead never mutates the state machine, so
calling it twice with the same forced reason on a session that stays
stable-open (the second call runs on the state returned by the first)
emits a dead notification both times: two notifications in total. -/
theorem c5_dead_counterexample :
    (Browser.dead (some "oops") true stOpen).trace ++
      (Browser.dead (some "oops") true (Browser.dead (some "oops") true stOpen).st).trace =
      [Ev.evDead "oops", Ev.evDead "oops"] := rfl

/-- C5 amended: markDead() on a session already in a dead state
(target=close or current=close) returns true without emitting anything.
Since markDead() never mutates the state machine, repeated calls are
deduplicated only by state changes made elsewhere (e.g. by quit()): while
the session remains stable-open, every markDead(reason) call emits the
dead notification again, and in particular a fresh stable-open session
that dies via a single markDead(reason) call emits exactly one
notification for that call. -/
theorem c5_dead_emission (reason : Option String) (hasDriver : Bool) (st : StateSwitch)
    (r : String) (st2 : StateSwitch) :
    ((st.target = BState.closed ∨ st.current = BState.closed) →
      Browser.dead reason hasDriver st = ⟨true, st, []⟩) ∧
    (st2.target = BState.opened → st2.current = BState.opened → st2.inProcess = false →
      Browser.dead (some r) hasDriver st2 = ⟨true, st2, [Ev.evDead r]⟩) := by
  constructor
  · intro h
    unfold Browser.dead
    rw [if_pos h]
  · intro ht hc hip
    have hstable : st2.stable = true := by
      unfold StateSwitch.stable
      rw [ht, hc, hip]
      rfl
    unfold Browser.dead
    simp [ht, hc, hstable]

/-- C5 amended witness: an already-dead session reports dead silently,
and a stable-open session emits exactly one notification for one
markDead(reason) call. -/
theorem c5_dead_emission_witness :
    Browser.dead none true initialState = ⟨true, initialState, []⟩ ∧
    Browser.dead (some "x") true stOpen = ⟨true, stOpen, [Ev.evDead "x"]⟩ :=
  ⟨(c5_dead_emission none true initialState "x" stOpen).1 (Or.inl rfl),
   (c5_dead_emission none true stOpen "x" stOpen).2 rfl rfl rfl⟩

/-- C6 counterexample: the claim says readyLive() on a live session whose
probe returns a value other than 2 both returns false and causes a
subsequent dead-state check on the same session to report dead.  On a
stable-open session whose probe returns 7, readyLive() returns false, but
Browser.dead never mutates the state machine, so the subsequent
dead-state check (no forced reason, driver present) still reports
not-dead. -/
theorem c6_readyLive_counterexample :
    (Browser.readyLive (Except.ok (JSVal.num 7)) true stOpen).val = false ∧
    (Browser.dead none true stOpen).val = false :=
  ⟨rfl, rfl⟩

/-- C6 amended: readyLive() on a session that is already dead per the
state machine returns false at once with no driver call at all; on a
stable-open session (with a driver) whose probe returns a value other
than 2 it returns false and runs the dead check with the observed value
as forced reason, which emits the dead event but does not change the
state machine, so a subsequent dead-state check without a forced reason
still reports not-dead. -/
theorem c6_readyLive_probe (execO : Except String JSVal) (hasDriver : Bool)
    (st : StateSwitch) (v : JSVal) (st2 : StateSwitch) :
    ((st.target = BState.closed ∨ st.current = BState.closed) →
      Browser.readyLive execO hasDriver st = ⟨false, []⟩) ∧
    (st2.target = BState.opened → st2.current = BState.opened → st2.inProcess = false →
      v ≠ JSVal.num 2 →
      Browser.readyLive (Except.ok v) true st2 =
        ⟨false, [Ev.evExec "return 1+1",
                 Ev.evDead ("found dead browser coz 1+1 = " ++ v.render ++ " (not 2)")]⟩ ∧
      (Browser.dead none true st2).val = false) := by
  constructor
  · intro h
    unfold Browser.readyLive Browser.dead
    rcases h with h | h <;> simp [h]
  · intro ht hc hip hv
    have hstable : st2.stable = true := by
      unfold StateSwitch.stable
      rw [ht, hc, hip]
      rfl
    constructor
    · unfold Browser.readyLive Browser.execute Browser.dead
      simp [ht, hc, hstable, hv]
    · unfold Browser.dead
      simp [ht, hc]

/-- C6 amended witness: a fresh closed session short-circuits, and a
stable-open session whose probe returns 7 fails the probe, emits the dead
event, and still checks as not-dead afterwards. -/
theorem c6_readyLive_probe_witness :
    Browser.readyLive (Except.ok (JSVal.num 7)) true initialState = ⟨false, []⟩ ∧
    (Browser.readyLive (Except.ok (JSVal.num 7)) true stOpen =
        ⟨false, [Ev.evExec "return 1+1",
                 Ev.evDead "found dead browser coz 1+1 = 7 (not 2)"]⟩ ∧
      (Browser.dead none true stOpen).val = false) :=
  ⟨(c6_readyLive_probe (Except.ok (JSVal.num 7)) true initialState (JSVal.num 7) stOpen).1
      (Or.inl rfl),
   (c6_readyLive_probe (Except.ok (JSVal.num 7)) true initialState (JSVal.num 7) stOpen).2
      rfl rfl rfl (by intro h; cases h)⟩

/-- C8: calling init() while the state machine's current state is open
(stable or still transitioning) fails with the already-open error,
performs no driver or cookie call, and leaves the state machine, the
driver counters and the enumeration counter untouched. -/
theorem c8_init_already_open (d : Driver) (hostname : Option String)
    (loadRes : Except String Unit) (interfere : Bool) (enum : Nat → List Nat)
    (killO : Nat → Except String Unit) (st : StateSwitch) (c : Counts) (ec : Nat)
    (h : st.current = BState.opened) :
    Browser.init d hostname loadRes interfere enum killO st c ec =
      ⟨Except.error (if st.inProcess then "init() fail: current state is `open`-`ing`"
        else "init() fail: current state is `open`"), st, c, ec, []⟩ := by
  unfold Browser.init
  rw [if_pos h]

/-- C8 witness: init() on a stable-open session fails with the
already-open error, with an empty trace and unchanged state. -/
theorem c8_init_already_open_witness :
    Browser.init trivialDriver (some "wx.qq.com") (Except.ok ()) false enumEmpty killOk
      stOpen counts0 0 =
      ⟨Except.error "init() fail: current state is `open`", stOpen, counts0, 0, []⟩ :=
  c8_init_already_open trivialDriver (some "wx.qq.com") (Except.ok ()) false enumEmpty killOk
    stOpen counts0 0 rfl

/-- C10: the dead check never mutates the session state: for every forced
reason (present or not), driver presence, and starting state, the state
machine comes back identical, and the only other effect is at most one
dead event in the trace besides the returned boolean. -/
theorem c10_dead_frame (reason : Option String) (hasDriver : Bool) (st : StateSwitch) :
    (Browser.dead reason hasDriver st).st = st ∧
    ((Browser.dead reason hasDriver st).trace = [] ∨
      ∃ m, (Browser.dead reason hasDriver st).trace = [Ev.evDead m]) := by
  rcases reason with _ | r
  · unfold Browser.dead
    dsimp only
    split
    · exact ⟨rfl, Or.inl rfl⟩
    · split
      · exact ⟨rfl, Or.inl rfl⟩
      · split
        · exact ⟨rfl, Or.inr ⟨_, rfl⟩⟩
        · exact ⟨rfl, Or.inl rfl⟩
  · unfold Browser.dead
    dsimp only
    split
    · exact ⟨rfl, Or.inl rfl⟩
    · split
      · exact ⟨rfl, Or.inr ⟨r, rfl⟩⟩
      · exact ⟨rfl, Or.inl rfl⟩

/-- Unfolding of one poll with exactly one attempt left. -/
lemma cleanPoll_one (enum : Nat → List Nat) (backoff a ec : Nat) :
    cleanPoll enum backoff a 1 ec =
      if (enum ec).length > 0 then
        ⟨Except.error ("browser number: " ++ toString (enum ec).length), ec + 1, []⟩
      else
        ⟨Except.ok (), ec + 1, []⟩ := rfl

/-- Unfolding of one poll with at least two attempts left. -/
lemma cleanPoll_succ2 (enum : Nat → List Nat) (backoff a f ec : Nat) :
    cleanPoll enum backoff a (f + 2) ec =
      if (enum ec).length > 0 then
        ⟨(cleanPoll enum backoff (a + 1) (f + 1) (ec + 1)).res,
         (cleanPoll enum backoff (a + 1) (f + 1) (ec + 1)).ec,
         Ev.evSleep (backoff * a) :: (cleanPoll enum backoff (a + 1) (f + 1) (ec + 1)).trace⟩
      else
        ⟨Except.ok (), ec + 1, []⟩ := rfl

/-- When the enumerator always reports matching processes, the poll
exhausts its whole budget: the last attempt's error (carrying the process
count of the final enumeration) is surfaced, one enumeration per attempt
was performed, and a linear-backoff sleep separated the attempts. -/
lemma cleanPoll_exhaust (enum : Nat → List Nat) (h : ∀ k, enum k ≠ []) :
    ∀ f a ec, cleanPoll enum 100 a (f + 1) ec =
      ⟨Except.error ("browser number: " ++ toString (enum (ec + f)).length),
       ec + f + 1, pollSleeps 100 a (f + 1)⟩ := by
  intro f
  induction f with
  | zero =>
    intro a ec
    rw [cleanPoll_one]
    rw [if_pos (List.length_pos.mpr (h ec))]
    simp [pollSleeps]
  | succ f ih =>
    intro a ec
    rw [show f + 1 + 1 = f + 2 from rfl, cleanPoll_succ2]
    rw [if_pos (List.length_pos.mpr (h ec))]
    rw [ih (a + 1) (ec + 1)]
    have e1 : ec + 1 + f = ec + (f + 1) := by omega
    simp only [e1]
    constructor
  -- the congruence between the two additions is settled above; the trace
  -- equality is by the definition of pollSleeps

/-- Every event of the poll's trace is a backoff sleep. -/
lemma cleanPoll_trace_sleeps (enum : Nat → List Nat) (backoff : Nat) :
    ∀ f a ec, ∀ e ∈ (cleanPoll enum backoff a f ec).trace, ∃ ms, e = Ev.evSleep ms := by
  intro f
  induction f with
  | zero =>
    intro a ec e he
    simp [cleanPoll] at he
  | succ f ih =>
    intro a ec e he
    match f with
    | 0 =>
      rw [cleanPoll_one] at he
      split at he <;> simp at he
    | g + 1 =>
      rw [show g + 1 + 1 = g + 2 from rfl, cleanPoll_succ2] at he
      split at he
      · simp only [List.mem_cons] at he
        rcases he with rfl | he
        · exact ⟨backoff * a, rfl⟩
        · exact ih (a + 1) (ec + 1) e he
      · simp at he

/-- C9: clean(forceKill) succeeds with one enumeration and no backoff
sleep when the enumerator reports zero matching processes; with
forceKill=true it emits a kill signal for every pid of the initial
enumeration before any polling event, with the kill oracle (whose per-pid
errors are logged and swallowed) never influencing the outcome; and when
every enumeration keeps reporting processes, the 15-attempt budget with
100ms linear backoff is exhausted and the last attempt's error (the
process count remaining) is surfaced after exactly 15 polling
enumerations. -/
theorem c9_clean_spec :
    (∀ (enum : Nat → List Nat) (killO : Nat → Except String Unit) (ec : Nat),
      enum ec = [] →
      Browser.clean false enum killO ec = ⟨Except.ok (), ec + 1, []⟩)
  ∧ (∀ (enum : Nat → List Nat) (killO : Nat → Except String Unit) (ec : Nat),
      ∃ rest,
        (Browser.clean true enum killO ec).trace = (enum ec).map Ev.evKill ++ rest ∧
        (∀ e ∈ rest, ∃ ms, e = Ev.evSleep ms) ∧
        (∀ killO', Browser.clean true enum killO ec = Browser.clean true enum killO' ec))
  ∧ (∀ (enum : Nat → List Nat) (killO : Nat → Except String Unit) (ec : Nat),
      (∀ k, enum k ≠ []) →
      (Browser.clean false enum killO ec).res =
        Except.error ("browser number: " ++ toString (enum (ec + 14)).length) ∧
      (Browser.clean false enum killO ec).ec = ec + 15) := by
  refine ⟨?_, ?_, ?_⟩
  · intro enum killO ec h
    unfold Browser.clean
    rw [if_neg (by simp)]
    rw [show (15 : Nat) = 13 + 2 from rfl, cleanPoll_succ2]
    rw [if_neg (by rw [h]; simp)]
  · intro enum killO ec
    refine ⟨(cleanPoll enum 100 1 15 (ec + 1)).trace, ?_, ?_, ?_⟩
    · rfl
    · exact fun e he => cleanPoll_trace_sleeps enum 100 15 1 (ec + 1) e he
    · intro killO'
      rfl
  · intro enum killO ec h
    unfold Browser.clean
    rw [if_neg (by simp)]
    rw [show (15 : Nat) = 14 + 1 from rfl, cleanPoll_exhaust enum h 14 1 ec]
    exact ⟨rfl, rfl⟩

/-- C9 witness: with no matching processes clean(false) succeeds after a
single enumeration with no sleep; with a persistent orphan the poll
budget is exhausted and the remaining process count is surfaced; and the
kill phase of clean(true) signals the orphan first. -/
theorem c9_clean_spec_witness :
    Browser.clean false enumEmpty killOk 0 = ⟨Except.ok (), 1, []⟩ ∧
    (Browser.clean false enumOrphan killOk 0).res = Except.error "browser number: 1" ∧
    (∃ rest, (Browser.clean true enumOrphan killOk 0).trace = [Ev.evKill 42] ++ rest ∧
      (∀ e ∈ rest, ∃ ms, e = Ev.evSleep ms) ∧
      (∀ killO', Browser.clean true enumOrphan killOk 0 = Browser.clean true enumOrphan killO' 0)) := by
  refine ⟨c9_clean_spec.1 enumEmpty killOk 0 rfl, ?_, ?_⟩
  · have h := (c9_clean_spec.2.2 enumOrphan killOk 0 (by intro k hk; cases hk)).1
    rw [h]
    rfl
  · exact c9_clean_spec.2.1 enumOrphan killOk 0

/-- A race that does not settle ok produces some rejection message (the
driver's error if it settled, the timeout message if the timer won). -/
lemma raceResult_error (o : RaceOutcome) (t : Nat)
    (h : o ≠ RaceOutcome.settled (Except.ok ())) :
    ∃ m, raceResult o t = Except.error m := by
  cases o with
  | settled r =>
    cases r with
    | ok u =>
      cases u
      exact absurd rfl h
    | error m => exact ⟨m, rfl⟩
  | hang => exact ⟨timeoutMsg t, rfl⟩

/-- C1 counterexample: the claim says that when all 3 attempts are
exhausted, open() fails with an error carrying the last error observed.
The source throws the fixed message 'open fail because ttl expired': two
runs whose attempts reject with different errors ("boom" and "bang")
produce identical results, so the thrown error cannot carry the last
error observed. -/
theorem c1_open_retry_counterexample :
    openGo (allFailDriver "boom") "https://wx.qq.com" 3 counts0 =
      openGo (allFailDriver "bang") "https://wx.qq.com" 3 counts0 ∧
    (openGo (allFailDriver "boom") "https://wx.qq.com" 3 counts0).res =
      Except.error "open fail because ttl expired" ∧
    "boom" ≠ "bang" := by
  refine ⟨rfl, rfl, by decide⟩

/-- C1 amended: for every call to open(url), the engine runs up to 3
attempts, each racing the driver's get(url) call against the fixed
60-second timeout; after each failed attempt the driver is fully reset
(close, quit, init); if all 3 attempts are exhausted, open() performs a
final driver close+quit and fails with the fixed NavigationExhausted
error 'open fail because ttl expired', which does not carry the last
error observed.  Stated for a driver whose first three get races all fail
and whose reset calls succeed: exactly 3 get calls are made, each
followed by the full reset, then the final close+quit. -/
theorem c1_open_retry (d : Driver) (url : String)
    (hg : ∀ k, k < 3 → d.getO k ≠ RaceOutcome.settled (Except.ok ()))
    (hc : ∀ k, d.closeO k = Except.ok ())
    (hq : ∀ k, d.quitO k = Except.ok ())
    (hi : ∀ k, d.initO k = Except.ok ()) :
    openGo d url 3 counts0 =
      ⟨Except.error "open fail because ttl expired", ⟨3, 4, 4, 3⟩,
       [Ev.evGet url, Ev.evClose, Ev.evQuit, Ev.evInit,
        Ev.evGet url, Ev.evClose, Ev.evQuit, Ev.evInit,
        Ev.evGet url, Ev.evClose, Ev.evQuit, Ev.evInit,
        Ev.evClose, Ev.evQuit]⟩ := by
  obtain ⟨m0, hm0⟩ := raceResult_error (d.getO 0) 2 (hg 0 (by omega))
  obtain ⟨m1, hm1⟩ := raceResult_error (d.getO 1) 1 (hg 1 (by omega))
  obtain ⟨m2, hm2⟩ := raceResult_error (d.getO 2) 0 (hg 2 (by omega))
  unfold openGo counts0
  dsimp only
  rw [hm0]
  unfold resetDriver
  dsimp only
  rw [hc 0]
  dsimp only
  rw [hq 0]
  dsimp only
  rw [hi 0]
  dsimp only
  unfold openGo
  dsimp only
  rw [hm1]
  unfold resetDriver
  dsimp only
  rw [hc 1]
  dsimp only
  rw [hq 1]
  dsimp only
  rw [hi 1]
  dsimp only
  unfold openGo
  dsimp only
  rw [hm2]
  unfold resetDriver
  dsimp only
  rw [hc 2]
  dsimp only
  rw [hq 2]
  dsimp only
  rw [hi 2]
  dsimp only
  unfold openGo finalCloseQuit
  dsimp only
  rw [hc 3]
  dsimp only
  rw [hq 3]
  rfl

/-- C1 amended witness: a driver whose every get call rejects leaves the
expected retry trace and the fixed error. -/
theorem c1_open_retry_witness :
    openGo (allFailDriver "connection reset") "https://wx.qq.com" 3 counts0 =
      ⟨Except.error "open fail because ttl expired", ⟨3, 4, 4, 3⟩,
       [Ev.evGet "https://wx.qq.com", Ev.evClose, Ev.evQuit, Ev.evInit,
        Ev.evGet "https://wx.qq.com", Ev.evClose, Ev.evQuit, Ev.evInit,
        Ev.evGet "https://wx.qq.com", Ev.evClose, Ev.evQuit, Ev.evInit,
        Ev.evClose, Ev.evQuit]⟩ :=
  c1_open_retry (allFailDriver "connection reset") "https://wx.qq.com"
    (by intro k hk h; cases h)
    (fun _ => rfl) (fun _ => rfl) (fun _ => rfl)

/-- An open() whose first get race settles ok succeeds on the first
attempt: one get call, no reset. -/
lemma openGo_first_ok (d : Driver) (url : String) (c : Counts)
    (h : d.getO c.gets = RaceOutcome.settled (Except.ok ())) :
    openGo d url 3 c =
      ⟨Except.ok (), ⟨c.gets + 1, c.closes, c.quits, c.inits⟩, [Ev.evGet url]⟩ := by
  unfold openGo
  dsimp only
  rw [h]
  rfl

/-- Past its guard, init() either succeeds or exits through the catch
block, whose quit() call leaves the state machine fully closed. -/
lemma init_cases (d : Driver) (hostname : Option String) (loadRes : Except String Unit)
    (interfere : Bool) (enum : Nat → List Nat) (killO : Nat → Except String Unit)
    (st : StateSwitch) (c : Counts) (ec : Nat) (hcur : st.current ≠ BState.opened) :
    (Browser.init d hostname loadRes interfere enum killO st c ec).res = Except.ok () ∨
    (Browser.init d hostname loadRes interfere enum killO st c ec).st =
      ⟨BState.closed, BState.closed, false⟩ := by
  unfold Browser.init
  rw [if_neg hcur]
  dsimp only
  split
  · right
    exact (initFail_spec _ _ _ _ _ _ _ _
      (by simp [StateSwitch.setCurrent, StateSwitch.setTarget])).2
  · split
    · right
      exact (initFail_spec _ _ _ _ _ _ _ _
        (by simp [StateSwitch.setCurrent, StateSwitch.setTarget])).2
    · split
      · right
        exact (initFail_spec _ _ _ _ _ _ _ _
          (by simp [StateSwitch.setCurrent, StateSwitch.setTarget])).2
      · split
        · -- a concurrent quit() has flipped target to close
          rw [if_neg (by simp [StateSwitch.setTarget, StateSwitch.setCurrent])]
          right
          exact (initFail_spec _ _ _ _ _ _ _ _
            (by simp [StateSwitch.setCurrent, StateSwitch.setTarget])).2
        · -- no interference: the commit point is reached
          rw [if_pos (by simp [StateSwitch.setTarget, StateSwitch.setCurrent])]
          left
          rfl

/-- C7: if, during init()'s navigation sequence, another caller has set
target=close, init() aborts with the AbortedByConcurrentClose error and
does not commit current=open (the state machine ends fully closed, via
the quit() the catch block runs); and on any failure during the init()
sequence past the guard, quit() is invoked before the error is re-raised,
leaving the state machine fully closed. -/
theorem c7_init_abort :
    (∀ (d : Driver) (hostname : Option String) (loadRes : Except String Unit)
        (interfere : Bool) (enum : Nat → List Nat) (killO : Nat → Except String Unit)
        (st : StateSwitch) (c : Counts) (ec : Nat) (m : String),
      st.current ≠ BState.opened →
      (Browser.init d hostname loadRes interfere enum killO st c ec).res = Except.error m →
      (Browser.init d hostname loadRes interfere enum killO st c ec).st =
        ⟨BState.closed, BState.closed, false⟩)
  ∧ (∀ (d : Driver) (h : String) (loadRes : Except String Unit)
        (enum : Nat → List Nat) (killO : Nat → Except String Unit)
        (st : StateSwitch) (c : Counts) (ec : Nat),
      st.current ≠ BState.opened →
      d.initO c.inits = Except.ok () →
      d.getO c.gets = RaceOutcome.settled (Except.ok ()) →
      d.getO (c.gets + 1) = RaceOutcome.settled (Except.ok ()) →
      (Browser.init d (some h) loadRes true enum killO st c ec).res =
          Except.error abortMsg ∧
        (Browser.init d (some h) loadRes true enum killO st c ec).st =
          ⟨BState.closed, BState.closed, false⟩) := by
  constructor
  · intro d hostname loadRes interfere enum killO st c ec m hcur hres
    rcases init_cases d hostname loadRes interfere enum killO st c ec hcur with hok | hst
    · rw [hres] at hok
      cases hok
    · exact hst
  · intro d h loadRes enum killO st c ec hcur hinit hget1 hget2
    unfold Browser.init
    rw [if_neg hcur]
    dsimp only
    rw [hinit]
    dsimp only
    unfold Browser.openUrl
    dsimp only
    rw [openGo_first_ok d
      ("https://" ++ hostString (some h) ++ "/zh_CN/htmledition/v2/images/webwxgeticon.jpg")
      ⟨c.gets, c.closes, c.quits, c.inits + 1⟩ (by exact hget1)]
    dsimp only
    rw [openGo_first_ok d ("https://" ++ h)
      ⟨c.gets + 1, c.closes, c.quits, c.inits + 1⟩ (by exact hget2)]
    dsimp only
    rw [if_neg (by simp [StateSwitch.setTarget, StateSwitch.setCurrent])]
    exact ⟨(initFail_spec _ _ _ _ _ _ _ _
        (by simp [StateSwitch.setCurrent, StateSwitch.setTarget])).1,
      (initFail_spec _ _ _ _ _ _ _ _
        (by simp [StateSwitch.setCurrent, StateSwitch.setTarget])).2⟩

/-- C7 witness: an init() whose driver.init() rejects leaves the state
machine fully closed, and an init() interrupted by a concurrent
target=close flip aborts with the abort error and ends fully closed. -/
theorem c7_init_abort_witness :
    (Browser.init failInitDriver (some "wx.qq.com") (Except.ok ()) false enumEmpty killOk
        initialState counts0 0).st = ⟨BState.closed, BState.closed, false⟩ ∧
    ((Browser.init trivialDriver (some "wx.qq.com") (Except.ok ()) true enumEmpty killOk
          initialState counts0 0).res = Except.error abortMsg ∧
      (Browser.init trivialDriver (some "wx.qq.com") (Except.ok ()) true enumEmpty killOk
          initialState counts0 0).st = ⟨BState.closed, BState.closed, false⟩) :=
  ⟨c7_init_abort.1 failInitDriver (some "wx.qq.com") (Except.ok ()) false enumEmpty killOk
      initialState counts0 0 "driver init boom" (by intro hh; cases hh) rfl,
   c7_init_abort.2 trivialDriver "wx.qq.com" (Except.ok ()) enumEmpty killOk
      initialState counts0 0 (by intro hh; cases hh) rfl rfl rfl⟩

end PuppetWeb
